/-
Verification of the pre-market-bias briefing generator
(`pre_market_bias_app.py`) against its specification.

The script is an orchestration pipeline: price statistics per symbol,
headline fetching, context composition, and an LLM summary call.  All
network I/O is modelled by passing the provider's response as an explicit
argument; every function below is a direct translation of the
corresponding Python function, with:

  * Python floats as rationals (`ℚ`); the only NaN the script can produce
    is the pandas max/min of an empty slice, modelled by `Option ℚ`
    (`none` = NaN);
  * `round(x, 2)` modelled as decimal round-half-to-even (`pyRound`);
  * a raised exception modelled as `none` / a dedicated constructor;
  * Python `dict` results modelled by `Option PriceStats` (`none` = the
    empty dict returned on an empty download).
-/
import Mathlib

/-- Python `round` ties go to the nearest even integer (banker's rounding);
this models `round` applied to the exact decimal value. -/
def roundHalfEven (x : ℚ) : ℤ :=
  let f : ℤ := x.num.fdiv x.den
  let frac : ℚ := x - (f : ℚ)
  if frac < 1/2 then f
  else if 1/2 < frac then f + 1
  else if f % 2 = 0 then f else f + 1

/-- Python `round(x, n)`: round to `n` decimal digits, half to even. -/
def pyRound (x : ℚ) (ndigits : Nat) : ℚ :=
  (roundHalfEven (x * 10 ^ ndigits) : ℚ) / 10 ^ ndigits

/-- One 5-minute price bar of the intraday series returned by the market
data provider: its time of day (minutes after local midnight, the only
component `between_time` inspects) and its High/Low/Close columns. -/
structure Bar where
  minuteOfDay : Nat
  high : ℚ
  low : ℚ
  close : ℚ
deriving DecidableEq

/-- The value object built by `get_price_stats` for a non-empty download.
The dict always carries the five keys; `high`/`low` are `none` exactly
when pandas produced NaN (max/min of an empty overnight slice). -/
structure PriceStats where
  high : Option ℚ
  low : Option ℚ
  last : ℚ
  prev_close : ℚ
  pct_change : ℚ
deriving DecidableEq

/-- `intraday.between_time("18:00", "09:30")` keeps a row iff its time of
day lies in the wrap-around window [18:00, 24:00) ∪ [00:00, 09:30],
endpoints inclusive (the pandas default).  18:00 = minute 1080,
09:30 = minute 570. -/
def inOvernight (m : Nat) : Bool :=
  decide (1080 ≤ m) || decide (m ≤ 570)

/-- The overnight slice of the intraday series. -/
def overnightOf (intraday : List Bar) : List Bar :=
  intraday.filter (fun b => inOvernight b.minuteOfDay)

/-- pandas `Series.max()`: greatest element, NaN (`none`) on an empty
series. -/
def seriesMax (l : List ℚ) : Option ℚ := l.max?

/-- pandas `Series.min()`: least element, NaN (`none`) on an empty
series. -/
def seriesMin (l : List ℚ) : Option ℚ := l.min?

/-- `get_price_stats(ticker)`, with the two provider downloads passed in
explicitly: `intraday` the 5-minute bars and `daily` the Close column of
the two-day daily download.  Returns `none` for the empty dict.
`last` is the close of the last bar of the FULL intraday series, while
`high`/`low` aggregate only the overnight slice; `prev_close` falls back
to `last` when the daily download is empty; `pct_change` is computed from
the unrounded values, and is `0` when `prev_close` is falsy (zero). -/
def get_price_stats (intraday : List Bar) (daily : List ℚ) : Option PriceStats :=
  if h : intraday = [] then none
  else
    let overnight := overnightOf intraday
    let high := seriesMax (overnight.map Bar.high)
    let low := seriesMin (overnight.map Bar.low)
    let last := (intraday.getLast h).close
    let prev_close := (daily.getLast?).getD last
    let pct : ℚ := if prev_close ≠ 0 then pyRound ((last - prev_close) / prev_close * 100) 2 else 0
    some { high := high.map (pyRound · 2)
           low := low.map (pyRound · 2)
           last := pyRound last 2
           prev_close := pyRound prev_close 2
           pct_change := pct }

-- Basic facts about the empty-aware max/min used by the stats fetcher.

theorem seriesMax_eq_none_iff (l : List ℚ) : seriesMax l = none ↔ l = [] := by
  simp [seriesMax]

theorem seriesMin_eq_none_iff (l : List ℚ) : seriesMin l = none ↔ l = [] := by
  simp [seriesMin]

theorem seriesMax_spec (l : List ℚ) (h : l ≠ []) :
    ∃ m, seriesMax l = some m ∧ m ∈ l ∧ ∀ x ∈ l, x ≤ m := by
  have hne : seriesMax l ≠ none := fun hc => h ((seriesMax_eq_none_iff l).mp hc)
  obtain ⟨m, hm⟩ := Option.ne_none_iff_exists.mp hne
  refine ⟨m, hm.symm, List.max?_mem max_choice hm.symm, ?_⟩
  exact (List.max?_le_iff (fun _ _ _ => max_le_iff) hm.symm).mp le_rfl

theorem seriesMin_spec (l : List ℚ) (h : l ≠ []) :
    ∃ m, seriesMin l = some m ∧ m ∈ l ∧ ∀ x ∈ l, m ≤ x := by
  have hne : seriesMin l ≠ none := fun hc => h ((seriesMin_eq_none_iff l).mp hc)
  obtain ⟨m, hm⟩ := Option.ne_none_iff_exists.mp hne
  refine ⟨m, hm.symm, List.min?_mem min_choice hm.symm, ?_⟩
  exact (List.le_min?_iff (fun _ _ _ => le_min_iff) hm.symm).mp le_rfl

/-- The shape asserted by the spec invariant for a `get_price_stats`
result: the absent dict, or a dict whose `high` and `low` are numbers
(`last`, `prev_close`, `pct_change` are rationals by construction, so the
only possible non-number is a NaN in `high`/`low`). -/
def allNumericOrAbsent (o : Option PriceStats) : Prop :=
  o = none ∨ ∃ s, o = some s ∧ s.high.isSome ∧ s.low.isSome

/-- C1 (counterexample): the claimed invariant "either the absent variant
or all five fields present and numeric" fails on a one-bar series whose
bar sits at 10:00, outside the overnight window: the result is a present
dict whose `high` and `low` are the NaN of an empty-slice max/min. -/
theorem C1_counterexample :
    ¬ allNumericOrAbsent (get_price_stats [⟨600, 5, 4, 5⟩] [4]) := by
  intro hcl
  have he : get_price_stats [⟨600, 5, 4, 5⟩] [4]
      = some ⟨none, none, 5, 4, 25⟩ := by with_unfolding_all decide
  rcases hcl with h0 | ⟨s, hs, hh, _⟩
  · rw [he] at h0
    exact Option.noConfusion h0
  · rw [he] at hs
    injection hs with hs
    subst hs
    simp at hh

/-- C1 (amended): `get_price_stats` returns the absent dict exactly when
the intraday download is empty; a present dict always carries all five
keys with `last`, `prev_close`, `pct_change` numeric, and its `high` and
`low` are numeric precisely when at least one bar falls inside the
overnight window (otherwise both are NaN together — never just one). -/
theorem C1_stats_shape (intraday : List Bar) (daily : List ℚ) :
    (get_price_stats intraday daily = none ↔ intraday = []) ∧
    (∀ s, get_price_stats intraday daily = some s →
      ((s.high.isSome ∧ s.low.isSome) ↔ overnightOf intraday ≠ [])) := by
  by_cases h : intraday = []
  · subst h
    refine ⟨by simp [get_price_stats], ?_⟩
    intro s hs
    simp [get_price_stats] at hs
  · refine ⟨by simp [get_price_stats, h], ?_⟩
    intro s hs
    simp only [get_price_stats, dif_neg h] at hs
    injection hs with hs
    subst hs
    simp only [Option.isSome_map']
    constructor
    · rintro ⟨hh, _⟩ hw
      rw [hw] at hh
      simp [seriesMax] at hh
    · intro hw
      have hne : (overnightOf intraday).map Bar.high ≠ [] := by simpa using hw
      have lne : (overnightOf intraday).map Bar.low ≠ [] := by simpa using hw
      obtain ⟨m, hm, -, -⟩ := seriesMax_spec _ hne
      obtain ⟨m', hm', -, -⟩ := seriesMin_spec _ lne
      exact ⟨by simp [hm], by simp [hm']⟩

/-- C1 witness: the shape theorem applied to a concrete one-bar series
whose bar lies inside the overnight window. -/
theorem C1_stats_shape_witness :
    ((⟨some 2, some 1, 3, 2, 50⟩ : PriceStats).high.isSome ∧
     (⟨some 2, some 1, 3, 2, 50⟩ : PriceStats).low.isSome) ↔
      overnightOf [⟨60, 2, 1, 3⟩] ≠ [] :=
  (C1_stats_shape [⟨60, 2, 1, 3⟩] [2]).2 ⟨some 2, some 1, 3, 2, 50⟩
    (by with_unfolding_all decide)

/-- C5: for a non-empty intraday series, the returned `high` is (the
2-decimal rounding of) a greatest element of the bar highs of the
overnight slice, `low` a least element of the bar lows of that slice,
while `last` is the close of the last bar of the FULL series. -/
theorem C5_overnight_extremes_full_last (intraday : List Bar) (daily : List ℚ)
    (h : intraday ≠ []) (s : PriceStats)
    (hs : get_price_stats intraday daily = some s) :
    s.last = pyRound (intraday.getLast h).close 2 ∧
    (overnightOf intraday ≠ [] →
      ∃ hm lm,
        s.high = some (pyRound hm 2) ∧
        hm ∈ (overnightOf intraday).map Bar.high ∧
        (∀ x ∈ (overnightOf intraday).map Bar.high, x ≤ hm) ∧
        s.low = some (pyRound lm 2) ∧
        lm ∈ (overnightOf intraday).map Bar.low ∧
        (∀ x ∈ (overnightOf intraday).map Bar.low, lm ≤ x)) := by
  simp only [get_price_stats, dif_neg h] at hs
  injection hs with hs
  subst hs
  refine ⟨rfl, ?_⟩
  intro hw
  obtain ⟨hm, hmax, hmem, hub⟩ :=
    seriesMax_spec ((overnightOf intraday).map Bar.high) (by simpa using hw)
  obtain ⟨lm, hmin, lmem, hlb⟩ :=
    seriesMin_spec ((overnightOf intraday).map Bar.low) (by simpa using hw)
  exact ⟨hm, lm, by simp [hmax], hmem, hub, by simp [hmin], lmem, hlb⟩

/-- C5 witness: the extremes theorem applied to a concrete one-bar
series whose bar sits at 20:00, inside the overnight window. -/
theorem C5_witness :
    ([(⟨1200, 10, 8, 9⟩ : Bar)] ≠ ([] : List Bar)) ∧
    (⟨some 10, some 8, 9, 8, 25/2⟩ : PriceStats).last = pyRound 9 2 :=
  ⟨by decide,
   (C5_overnight_extremes_full_last [⟨1200, 10, 8, 9⟩] [8] (by decide)
      ⟨some 10, some 8, 9, 8, 25/2⟩ (by with_unfolding_all decide)).1⟩

/-- C6: the returned `pct_change` is `round((last - prev_close) /
prev_close * 100, 2)` over the unrounded `last` and `prev_close` when
`prev_close` is non-zero, and `0` when `prev_close` is zero, where
`prev_close` is the last daily close, falling back to `last` when the
daily download is empty. -/
theorem C6_pct_change_formula (intraday : List Bar) (daily : List ℚ)
    (h : intraday ≠ []) (s : PriceStats)
    (hs : get_price_stats intraday daily = some s) :
    ((daily.getLast?).getD (intraday.getLast h).close ≠ 0 →
      s.pct_change = pyRound
        (((intraday.getLast h).close - (daily.getLast?).getD (intraday.getLast h).close)
          / (daily.getLast?).getD (intraday.getLast h).close * 100) 2) ∧
    ((daily.getLast?).getD (intraday.getLast h).close = 0 → s.pct_change = 0) := by
  simp only [get_price_stats, dif_neg h] at hs
  injection hs with hs
  subst hs
  constructor
  · intro hp
    simp [hp]
  · intro hp
    simp [hp]

/-- C6 witness: the percent-change formula evaluated at a concrete
series with last close 13/2 and previous daily close 5. -/
theorem C6_witness :
    (⟨some 7, some 6, 13/2, 5, 30⟩ : PriceStats).pct_change
      = pyRound ((13/2 - 5) / 5 * 100) 2 :=
  (C6_pct_change_formula [⟨100, 7, 6, 13/2⟩] [5] (by decide)
      ⟨some 7, some 6, 13/2, 5, 30⟩ (by with_unfolding_all decide)).1
    (by with_unfolding_all decide)

/-- C8: when the provider's intraday query returns an empty series,
`get_price_stats` returns the absent dict immediately; the function is
total, so no error is raised. -/
theorem C8_empty_series_absent (daily : List ℚ) :
    get_price_stats [] daily = none := rfl

/-- C10: a non-empty intraday series with no bar inside the 18:00–09:30
window yields a present dict (all five keys, not the absent variant, no
error raised) whose `high` and `low` are the NaN of an empty-slice
aggregate, while `last` is still the rounded close of the final bar. -/
theorem C10_empty_window_nan (intraday : List Bar) (daily : List ℚ)
    (h : intraday ≠ []) (hw : overnightOf intraday = []) :
    ∃ s, get_price_stats intraday daily = some s ∧
      s.high = none ∧ s.low = none ∧
      s.last = pyRound (intraday.getLast h).close 2 := by
  simp only [get_price_stats, dif_neg h]
  refine ⟨_, rfl, ?_, ?_, rfl⟩
  · simp [hw, seriesMax]
  · simp [hw, seriesMin]

/-- C10 witness: the NaN theorem applied to a concrete one-bar series
whose bar sits at 10:00, outside the overnight window. -/
theorem C10_witness :
    ∃ s, get_price_stats [⟨600, 6, 3, 7⟩] [7] = some s ∧
      s.high = none ∧ s.low = none ∧ s.last = pyRound 7 2 :=
  C10_empty_window_nan [⟨600, 6, 3, 7⟩] [7] (by decide) (by decide)

/-- A value as it appears inside one of the composed f-strings: a Python
`None` (`dict.get` miss), a NaN float, a number, or a plain string (the
explicit `.get` default for the DXY / 10-yr percent fields). -/
inductive PyVal where
  | pynone
  | pynan
  | num (q : ℚ)
  | str (s : String)
deriving DecidableEq

/-- Floor of a non-negative rational as a natural number. -/
def floorNatQ (x : ℚ) : Nat := (x.num.fdiv x.den).toNat

/-- Python `str()` of the floats the briefing prints.  Every numeric field
is a 2-decimal rounding, for which the float repr is the sign, the integer
part and the shortest decimal tail (at least one digit).  (The integer `0`
of the zero-`prev_close` fallback would print as `0` rather than `0.0`;
the model does not track Python's int/float distinction.) -/
def fmtQ (q : ℚ) : String :=
  let sign := if q < 0 then "-" else ""
  let a : ℚ := |q|
  let ip := floorNatQ a
  let cent := floorNatQ (a * 100) - 100 * ip
  let tail :=
    if cent = 0 then "0"
    else if cent % 10 = 0 then toString (cent / 10)
    else if cent < 10 then "0" ++ toString cent
    else toString cent
  sign ++ toString ip ++ "." ++ tail

/-- `str()` as the f-strings apply it to an interpolated value. -/
def pyStr : PyVal → String
  | PyVal.pynone => "None"
  | PyVal.pynan => "nan"
  | PyVal.num q => fmtQ q
  | PyVal.str s => s

/-- `d.get("high")` on a stats dict: `None` when the dict is the empty
fallback, NaN when the stored rounded high is the empty-slice NaN. -/
def dictGetHigh : Option PriceStats → PyVal
  | none => PyVal.pynone
  | some s =>
    match s.high with
    | none => PyVal.pynan
    | some q => PyVal.num q

/-- `d.get("low")`, as for `high`. -/
def dictGetLow : Option PriceStats → PyVal
  | none => PyVal.pynone
  | some s =>
    match s.low with
    | none => PyVal.pynan
    | some q => PyVal.num q

/-- `d.get("last")`: `None` on the empty dict, otherwise a number. -/
def dictGetLast : Option PriceStats → PyVal
  | none => PyVal.pynone
  | some s => PyVal.num s.last

/-- `d.get("pct_change")` with no default. -/
def dictGetPct : Option PriceStats → PyVal
  | none => PyVal.pynone
  | some s => PyVal.num s.pct_change

/-- `d.get("pct_change", dflt)` with an explicit string default, used for
the DXY and 10-yr lines. -/
def dictGetPctD : Option PriceStats → String → PyVal
  | none, dflt => PyVal.str dflt
  | some s, _ => PyVal.num s.pct_change

/-- The `context_lines` list built by the controller (source lines
153–169): date header, blank, overnight-futures section, blank, macro
section, blank, headline section, blank, closing instruction. -/
def context_lines (now : String) (es nq vix dxy tnx : Option PriceStats)
    (headlines : List String) : List String :=
  ["Date: " ++ now,
   "",
   "Overnight Futures:",
   "  • ES high " ++ pyStr (dictGetHigh es) ++ " / low " ++ pyStr (dictGetLow es) ++
     " / last " ++ pyStr (dictGetLast es) ++ " (" ++ pyStr (dictGetPct es) ++ "%)",
   "  • NQ high " ++ pyStr (dictGetHigh nq) ++ " / low " ++ pyStr (dictGetLow nq) ++
     " / last " ++ pyStr (dictGetLast nq) ++ " (" ++ pyStr (dictGetPct nq) ++ "%)",
   "",
   "Macro:",
   "  • VIX " ++ pyStr (dictGetLast vix) ++ " (" ++ pyStr (dictGetPct vix) ++ "%)",
   "  • DXY " ++ pyStr (dictGetLast dxy) ++ " (" ++ pyStr (dictGetPctD dxy "0") ++ "%)",
   "  • 10-yr yield " ++ pyStr (dictGetLast tnx) ++ " (" ++ pyStr (dictGetPctD tnx "0") ++ "%)",
   "",
   "Top Headlines:"]
  ++ headlines.map (fun h => "  • " ++ h)
  ++ ["",
      "Give a concise pre-market bias (bullish / bearish / neutral) for ES and NQ and key price levels to watch."]

/-- `context = "\n".join(context_lines)` (source line 170). -/
def composed_context (now : String) (es nq vix dxy tnx : Option PriceStats)
    (headlines : List String) : String :=
  String.intercalate "\n" (context_lines now es nq vix dxy tnx headlines)

/-- C2: whatever the inputs (each stats dict absent or present, headlines
empty or not), the composed context contains all five labeled sections —
date header, "Overnight Futures:", "Macro:", "Top Headlines:", and the
closing instruction — and an absent stats dict renders every one of its
fields in place: as the marker `None`, except the DXY / 10-yr percent
fields whose explicit `.get` default is the string `0`. -/
theorem C2_sections_and_markers (now : String) (es nq vix dxy tnx : Option PriceStats)
    (headlines : List String) :
    ("Date: " ++ now) ∈ context_lines now es nq vix dxy tnx headlines ∧
    "Overnight Futures:" ∈ context_lines now es nq vix dxy tnx headlines ∧
    "Macro:" ∈ context_lines now es nq vix dxy tnx headlines ∧
    "Top Headlines:" ∈ context_lines now es nq vix dxy tnx headlines ∧
    "Give a concise pre-market bias (bullish / bearish / neutral) for ES and NQ and key price levels to watch."
      ∈ context_lines now es nq vix dxy tnx headlines ∧
    (es = none → "  • ES high None / low None / last None (None%)"
      ∈ context_lines now es nq vix dxy tnx headlines) ∧
    (nq = none → "  • NQ high None / low None / last None (None%)"
      ∈ context_lines now es nq vix dxy tnx headlines) ∧
    (vix = none → "  • VIX None (None%)"
      ∈ context_lines now es nq vix dxy tnx headlines) ∧
    (dxy = none → "  • DXY None (0%)"
      ∈ context_lines now es nq vix dxy tnx headlines) ∧
    (tnx = none → "  • 10-yr yield None (0%)"
      ∈ context_lines now es nq vix dxy tnx headlines) := by
  simp only [context_lines]
  refine ⟨?_, ?_, ?_, ?_, ?_, ?_, ?_, ?_, ?_, ?_⟩
  · exact List.mem_append_left _ (List.mem_append_left _ (List.mem_cons_self _ _))
  · exact List.mem_append_left _ (List.mem_append_left _
      (List.mem_cons_of_mem _ (List.mem_cons_of_mem _ (List.mem_cons_self _ _))))
  · exact List.mem_append_left _ (List.mem_append_left _
      (List.mem_cons_of_mem _ (List.mem_cons_of_mem _ (List.mem_cons_of_mem _
        (List.mem_cons_of_mem _ (List.mem_cons_of_mem _ (List.mem_cons_of_mem _
          (List.mem_cons_self _ _))))))))
  · exact List.mem_append_left _ (List.mem_append_left _
      (List.mem_cons_of_mem _ (List.mem_cons_of_mem _ (List.mem_cons_of_mem _
        (List.mem_cons_of_mem _ (List.mem_cons_of_mem _ (List.mem_cons_of_mem _
          (List.mem_cons_of_mem _ (List.mem_cons_of_mem _ (List.mem_cons_of_mem _
            (List.mem_cons_of_mem _ (List.mem_cons_of_mem _
              (List.mem_cons_self _ _)))))))))))))
  · exact List.mem_append_right _ (List.mem_cons_of_mem _ (List.mem_cons_self _ _))
  · intro h
    subst h
    exact List.mem_append_left _ (List.mem_append_left _
      (List.mem_cons_of_mem _ (List.mem_cons_of_mem _ (List.mem_cons_of_mem _
        (List.mem_cons_self _ _)))))
  · intro h
    subst h
    exact List.mem_append_left _ (List.mem_append_left _
      (List.mem_cons_of_mem _ (List.mem_cons_of_mem _ (List.mem_cons_of_mem _
        (List.mem_cons_of_mem _ (List.mem_cons_self _ _))))))
  · intro h
    subst h
    exact List.mem_append_left _ (List.mem_append_left _
      (List.mem_cons_of_mem _ (List.mem_cons_of_mem _ (List.mem_cons_of_mem _
        (List.mem_cons_of_mem _ (List.mem_cons_of_mem _ (List.mem_cons_of_mem _
          (List.mem_cons_of_mem _ (List.mem_cons_self _ _)))))))))
  · intro h
    subst h
    exact List.mem_append_left _ (List.mem_append_left _
      (List.mem_cons_of_mem _ (List.mem_cons_of_mem _ (List.mem_cons_of_mem _
        (List.mem_cons_of_mem _ (List.mem_cons_of_mem _ (List.mem_cons_of_mem _
          (List.mem_cons_of_mem _ (List.mem_cons_of_mem _
            (List.mem_cons_self _ _))))))))))
  · intro h
    subst h
    exact List.mem_append_left _ (List.mem_append_left _
      (List.mem_cons_of_mem _ (List.mem_cons_of_mem _ (List.mem_cons_of_mem _
        (List.mem_cons_of_mem _ (List.mem_cons_of_mem _ (List.mem_cons_of_mem _
          (List.mem_cons_of_mem _ (List.mem_cons_of_mem _ (List.mem_cons_of_mem _
            (List.mem_cons_self _ _)))))))))))

/-- C2 witness: the structural theorem applied with every stats dict
absent and no headlines. -/
theorem C2_witness :
    "Overnight Futures:" ∈ context_lines "t" none none none none none [] ∧
    "  • ES high None / low None / last None (None%)"
      ∈ context_lines "t" none none none none none [] ∧
    "  • DXY None (0%)" ∈ context_lines "t" none none none none none [] :=
  ⟨(C2_sections_and_markers "t" none none none none none []).2.1,
   (C2_sections_and_markers "t" none none none none none []).2.2.2.2.2.1 rfl,
   (C2_sections_and_markers "t" none none none none none []).2.2.2.2.2.2.2.2.1 rfl⟩

/-- The JSON values a NewsAPI response body can hold.  JSON integers
parse to Python `int`, decimal numbers to `float`, hence two numeric
constructors. -/
inductive Json where
  | null
  | bool (b : Bool)
  | intg (n : ℤ)
  | flt (q : ℚ)
  | str (s : String)
  | arr (xs : List Json)
  | obj (fields : List (String × Json))

/-- First-match lookup in a decoded JSON object (Python dicts cannot hold
duplicate keys, so first-match is exact). -/
def jsonLookup : List (String × Json) → String → Option Json
  | [], _ => none
  | (k, v) :: rest, key => if k = key then some v else jsonLookup rest key

/-- Python subscription `a[k]`: raises (`none`) unless `a` is a dict
containing the key. -/
def pyIndex (a : Json) (k : String) : Option Json :=
  match a with
  | Json.obj fs => jsonLookup fs k
  | _ => none

/-- Python `d.get(k, dflt)`: raises `AttributeError` (`none`) unless `d`
is a dict; otherwise the stored value or the default. -/
def pyGetDefault (d : Json) (k : String) (dflt : Json) : Option Json :=
  match d with
  | Json.obj fs => some ((jsonLookup fs k).getD dflt)
  | _ => none

mutual

/-- Python `repr` of a decoded JSON value, used by `str` on containers.
(Quote-escaping inside string values is not modelled; no claim touches
container rendering.) -/
def reprJson : Json → String
  | Json.null => "None"
  | Json.bool true => "True"
  | Json.bool false => "False"
  | Json.intg n => toString n
  | Json.flt q => fmtQ q
  | Json.str s => "\x27" ++ s ++ "\x27"
  | Json.arr xs => "[" ++ String.intercalate ", " (reprJsonList xs) ++ "]"
  | Json.obj fs => "\x7b" ++ String.intercalate ", " (reprJsonPairs fs) ++ "\x7d"

/-- `repr` of the elements of a JSON array. -/
def reprJsonList : List Json → List String
  | [] => []
  | j :: js => reprJson j :: reprJsonList js

/-- `repr` of the entries of a JSON object. -/
def reprJsonPairs : List (String × Json) → List String
  | [] => []
  | (k, v) :: fs => ("\x27" ++ k ++ "\x27: " ++ reprJson v) :: reprJsonPairs fs

end

/-- Python `str()` of a decoded JSON value, as an f-string interpolates
it: strings verbatim, `None` for null, `True`/`False`, numerals, and
`repr`-based rendering for containers. -/
def pyStrJson : Json → String
  | Json.str s => s
  | j => reprJson j

/-- The f-string of the comprehension (source line 86) applied to one
article: `f"{a['title']} — {a['source']['name']}"`; `none` when any of
the subscriptions raises. -/
def headlineOf (a : Json) : Option String :=
  match pyIndex a "title" with
  | none => none
  | some t =>
    match pyIndex a "source" with
    | none => none
    | some srcJ =>
      match pyIndex srcJ "name" with
      | none => none
      | some n => some (pyStrJson t ++ " — " ++ pyStrJson n)

/-- The list comprehension over the decoded articles: every article must
yield a headline, otherwise the comprehension raises (`none`) and the
`except` branch returns `[]`. -/
def mapHeadlines : List Json → Option (List String)
  | [] => some []
  | a :: rest =>
    match headlineOf a, mapHeadlines rest with
    | some h, some hs => some (h :: hs)
    | _, _ => none

/-- Iterating the `articles` value in the comprehension: a list iterates
its elements; a string iterates its characters and a dict its keys, so
both raise on the first subscription (empty ones yield zero headlines);
anything else is not iterable and raises immediately. -/
def pyIterHeadlines : Json → Option (List String)
  | Json.arr xs => mapHeadlines xs
  | Json.str s => if s.isEmpty then some [] else none
  | Json.obj fs => if fs.isEmpty then some [] else none
  | _ => none

/-- UTF-8 bytes of a character, for percent-encoding. -/
def utf8Bytes (c : Char) : List Nat :=
  let n := c.toNat
  if n < 128 then [n]
  else if n < 2048 then [192 + n / 64, 128 + n % 64]
  else if n < 65536 then [224 + n / 4096, 128 + n / 64 % 64, 128 + n % 64]
  else [240 + n / 262144, 128 + n / 4096 % 64, 128 + n / 64 % 64, 128 + n % 64]

/-- Upper-case hexadecimal digit. -/
def hexDigit (n : Nat) : Char :=
  if n < 10 then Char.ofNat (48 + n) else Char.ofNat (55 + n)

/-- `%XX` encoding of one byte. -/
def percentEncodeByte (b : Nat) : String :=
  String.mk ['%', hexDigit (b / 16), hexDigit (b % 16)]

/-- `requests.utils.quote` for one character: ASCII alphanumerics,
`_.-~` and the default safe character `/` pass through, everything else
is percent-encoded per UTF-8 byte. -/
def quoteChar (c : Char) : String :=
  if c.isAlphanum || c = '_' || c = '.' || c = '-' || c = '~' || c = '/' then
    String.mk [c]
  else
    String.join ((utf8Bytes c).map percentEncodeByte)

/-- `requests.utils.quote(query)`. -/
def pyQuote (s : String) : String :=
  String.join (s.data.map quoteChar)

/-- The top-headlines URL built by `fetch_news` (source lines 78–82),
with the `pageSize` request parameter carrying `max_headlines`. -/
def newsUrl (api_key query : String) (max_headlines : Nat) : String :=
  "https://newsapi.org/v2/top-headlines?" ++
    "q=" ++ pyQuote query ++ "&language=en&category=business" ++
    "&pageSize=" ++ toString max_headlines ++ "&apiKey=" ++ api_key

/-- The HTTP response delivered by `requests.get`: final status code and
the decoded JSON body (`none` when `r.json()` raises on a malformed
body). -/
structure HttpResponse where
  status : Nat
  body : Option Json

/-- Outcome of `requests.get(url, timeout=10)`: either a raised network
exception or a response.  `raise_for_status` raises exactly for status
codes in [400, 600). -/
inductive RequestResult where
  | exn (msg : String)
  | resp (r : HttpResponse)

/-- `fetch_news(api_key, query, max_headlines)`, with the network call
modelled by `net` applied to the built URL.  The whole request/parse is
wrapped in `try/except Exception: return []`, so the function is total:
every failure path yields `[]`.  Note the comprehension maps over ALL
returned articles — there is no client-side truncation. -/
def fetch_news (api_key : String) (query : String) (max_headlines : Nat)
    (net : String → RequestResult) : List String :=
  match net (newsUrl api_key query max_headlines) with
  | RequestResult.exn _ => []
  | RequestResult.resp r =>
    if 400 ≤ r.status ∧ r.status < 600 then []
    else
      match r.body with
      | none => []
      | some j =>
        match pyGetDefault j "articles" (Json.arr []) with
        | none => []
        | some v => (pyIterHeadlines v).getD []

theorem mapHeadlines_length_and_map (arts : List Json) (hs : List String)
    (h : mapHeadlines arts = some hs) :
    hs.length = arts.length ∧
    ∀ i (h1 : i < arts.length) (h2 : i < hs.length),
      headlineOf (arts.get ⟨i, h1⟩) = some (hs.get ⟨i, h2⟩) := by
  induction arts generalizing hs with
  | nil =>
    simp only [mapHeadlines, Option.some.injEq] at h
    subst h
    exact ⟨rfl, fun i h1 _ => absurd h1 (Nat.not_lt_zero i)⟩
  | cons a rest ih =>
    simp only [mapHeadlines] at h
    cases hha : headlineOf a with
    | none => rw [hha] at h; exact absurd h (by simp)
    | some hd =>
      cases hmr : mapHeadlines rest with
      | none => rw [hha, hmr] at h; exact absurd h (by simp)
      | some tl =>
        rw [hha, hmr] at h
        injection h with h
        subst h
        obtain ⟨hlen, hpt⟩ := ih tl hmr
        refine ⟨by simp [hlen], ?_⟩
        intro i h1 h2
        cases i with
        | zero => simpa using hha
        | succ n =>
          simpa using hpt n (by simpa using h1) (by simpa using h2)

/-- C4 (amended): `fetch_news` returns the empty sequence and never
raises (it is total) whenever the request raises a network error, the
response status lies in [400, 600) (the codes `raise_for_status` raises
for), the body is not decodable JSON, fetching the `articles` entry
raises, or iterating/subscribing the articles raises.  A non-2xx status
below 400 is NOT treated as a failure. -/
theorem C4_failure_empty (api_key query : String) (maxH : Nat)
    (net : String → RequestResult) :
    (∀ e, net (newsUrl api_key query maxH) = RequestResult.exn e →
      fetch_news api_key query maxH net = []) ∧
    (∀ r, net (newsUrl api_key query maxH) = RequestResult.resp r →
      400 ≤ r.status → r.status < 600 →
      fetch_news api_key query maxH net = []) ∧
    (∀ r, net (newsUrl api_key query maxH) = RequestResult.resp r →
      r.body = none → fetch_news api_key query maxH net = []) ∧
    (∀ r j, net (newsUrl api_key query maxH) = RequestResult.resp r →
      r.body = some j →
      pyGetDefault j "articles" (Json.arr []) = none →
      fetch_news api_key query maxH net = []) ∧
    (∀ r j v, net (newsUrl api_key query maxH) = RequestResult.resp r →
      r.body = some j →
      pyGetDefault j "articles" (Json.arr []) = some v →
      pyIterHeadlines v = none →
      fetch_news api_key query maxH net = []) := by
  refine ⟨?_, ?_, ?_, ?_, ?_⟩
  · intro e he
    simp [fetch_news, he]
  · intro r hr h4 h6
    simp only [fetch_news, hr]
    rw [if_pos ⟨h4, h6⟩]
  · intro r hr hb
    simp only [fetch_news, hr, hb]
    split <;> rfl
  · intro r j hr hb hg
    simp only [fetch_news, hr, hb, hg]
    split <;> rfl
  · intro r j v hr hb hg hi
    simp only [fetch_news, hr, hb, hg, hi]
    split <;> rfl

/-- C4 witness: a raised network error yields the empty list. -/
theorem C4_witness :
    fetch_news "k" "q" 5 (fun _ => RequestResult.exn "boom") = [] :=
  (C4_failure_empty "k" "q" 5 (fun _ => RequestResult.exn "boom")).1 "boom" rfl

/-- C4 (counterexample): a response with the non-2xx status 300 and a
well-formed article body is, per the claim, a failed request that must
yield the empty sequence — but `raise_for_status` raises only for
4xx/5xx, so `fetch_news` parses and returns the headline. -/
theorem C4_counterexample :
    ¬ (200 ≤ 300 ∧ 300 ≤ 299) ∧
    fetch_news "k" "q" 5
      (fun _ => RequestResult.resp ⟨300, some (Json.obj [("articles",
        Json.arr [Json.obj [("title", Json.str "T"),
          ("source", Json.obj [("name", Json.str "S")])]])])⟩)
      = ["T — S"] :=
  ⟨by decide, by decide⟩

/-- C7 (amended): on a non-raising response whose body decodes to a dict
with an `articles` list, every article of which subscribes cleanly,
`fetch_news` returns exactly one `title — source.name` headline per
returned article, in provider order — with NO truncation to
`max_headlines`: the result length always equals the number of returned
articles (the `pageSize=max_headlines` URL parameter merely asks the
provider for that many). -/
theorem C7_success_maps_all (api_key query : String) (maxH : Nat)
    (net : String → RequestResult) (r : HttpResponse) (j : Json)
    (arts : List Json) (hs : List String)
    (hr : net (newsUrl api_key query maxH) = RequestResult.resp r)
    (hok : ¬ (400 ≤ r.status ∧ r.status < 600))
    (hb : r.body = some j)
    (ha : pyGetDefault j "articles" (Json.arr []) = some (Json.arr arts))
    (hm : mapHeadlines arts = some hs) :
    fetch_news api_key query maxH net = hs ∧
    hs.length = arts.length ∧
    ∀ i (h1 : i < arts.length) (h2 : i < hs.length),
      headlineOf (arts.get ⟨i, h1⟩) = some (hs.get ⟨i, h2⟩) := by
  obtain ⟨hlen, hpt⟩ := mapHeadlines_length_and_map arts hs hm
  refine ⟨?_, hlen, hpt⟩
  simp [fetch_news, hr, hok, hb, ha, pyIterHeadlines, hm]

/-- C7 witness: a 200 response carrying one article maps to its single
headline. -/
theorem C7_witness :
    fetch_news "k" "q" 5
      (fun _ => RequestResult.resp ⟨200, some (Json.obj [("articles",
        Json.arr [Json.obj [("title", Json.str "T1"),
          ("source", Json.obj [("name", Json.str "S1")])]])])⟩)
      = ["T1 — S1"] :=
  (C7_success_maps_all "k" "q" 5
    (fun _ => RequestResult.resp ⟨200, some (Json.obj [("articles",
        Json.arr [Json.obj [("title", Json.str "T1"),
          ("source", Json.obj [("name", Json.str "S1")])]])])⟩)
    ⟨200, some (Json.obj [("articles",
        Json.arr [Json.obj [("title", Json.str "T1"),
          ("source", Json.obj [("name", Json.str "S1")])]])])⟩
    (Json.obj [("articles",
        Json.arr [Json.obj [("title", Json.str "T1"),
          ("source", Json.obj [("name", Json.str "S1")])]])])
    [Json.obj [("title", Json.str "T1"),
          ("source", Json.obj [("name", Json.str "S1")])]]
    ["T1 — S1"] rfl (by decide) rfl rfl rfl).1

/-- C7 (counterexample): with `max_headlines = 2` but a provider response
carrying three articles, `fetch_news` returns all three headlines — the
claimed truncation to at most `maxHeadlines` elements does not happen. -/
theorem C7_counterexample :
    ¬ ((fetch_news "k" "q" 2
      (fun _ => RequestResult.resp ⟨200, some (Json.obj [("articles",
        Json.arr [Json.obj [("title", Json.str "a"),
            ("source", Json.obj [("name", Json.str "s")])],
          Json.obj [("title", Json.str "b"),
            ("source", Json.obj [("name", Json.str "s")])],
          Json.obj [("title", Json.str "c"),
            ("source", Json.obj [("name", Json.str "s")])]])])⟩)).length ≤ 2) := by
  decide

/-- Outcome of the one `openai.chat.completions.create` call: the
response text, or a raised exception (any provider/network error). -/
inductive LLMOutcome where
  | ok (text : String)
  | exn (msg : String)

/-- Python truthiness test `not openai.api_key`: the key is falsy when it
was never set (`None`) or is the empty string. -/
def pyFalsyStr : Option String → Bool
  | none => true
  | some s => s.isEmpty

/-- `summarize_with_openai(context)`, with the global `openai.api_key`
passed explicitly and the completion endpoint modelled by `provider`
applied to the context.  The second component of the result counts the
completion-endpoint requests issued (the function makes at most one and
exactly zero on the missing-key short-circuit); the first is the returned
narrative text — the success text trimmed, or a diagnostic. -/
def summarize_with_openai (api_key : Option String) (context : String)
    (provider : String → LLMOutcome) : String × Nat :=
  if pyFalsyStr api_key then ("⚠️ **OPENAI_API_KEY** is missing.", 0)
  else
    match provider context with
    | LLMOutcome.ok t => (t.trim, 1)
    | LLMOutcome.exn e => ("Error from OpenAI: " ++ e, 1)

/-- `pat` matches at the head of `s`. -/
def matchesHere : List Char → List Char → Bool
  | [], _ => true
  | _ :: _, [] => false
  | a :: as, b :: bs => (a = b) && matchesHere as bs

/-- `pat` occurs somewhere in the character list. -/
def containsChars (pat : List Char) : List Char → Bool
  | [] => matchesHere pat []
  | b :: rest => matchesHere pat (b :: rest) || containsChars pat rest

/-- Substring occurrence, for stating that a diagnostic names the key. -/
def containsStr (s pat : String) : Bool := containsChars pat.data s.data

/-- C3: with an absent or empty credential, `summarize_with_openai`
short-circuits to the missing-key diagnostic — a text naming
`OPENAI_API_KEY` as missing, distinct from any provider output — and
issues zero requests to the completion endpoint. -/
theorem C3_missing_key_short_circuit (key : Option String) (ctx : String)
    (provider : String → LLMOutcome)
    (hk : key = none ∨ key = some "") :
    summarize_with_openai key ctx provider = ("⚠️ **OPENAI_API_KEY** is missing.", 0) ∧
    containsStr (summarize_with_openai key ctx provider).1 "OPENAI_API_KEY" = true ∧
    containsStr (summarize_with_openai key ctx provider).1 "missing" = true ∧
    (summarize_with_openai key ctx provider).2 = 0 := by
  have hf : pyFalsyStr key = true := by
    rcases hk with h | h <;> subst h <;> rfl
  have he : summarize_with_openai key ctx provider
      = ("⚠️ **OPENAI_API_KEY** is missing.", 0) := by
    simp [summarize_with_openai, hf]
  refine ⟨he, ?_, ?_, ?_⟩
  · rw [he]
    decide
  · rw [he]
    decide
  · rw [he]

/-- C3 witness: the short-circuit theorem applied to the empty-string
credential and a provider that would have answered. -/
theorem C3_witness :
    ((some "" : Option String) = none ∨ (some "" : Option String) = some "") ∧
    summarize_with_openai (some "") "ctx" (fun _ => LLMOutcome.ok "fine")
      = ("⚠️ **OPENAI_API_KEY** is missing.", 0) :=
  ⟨Or.inr rfl,
   (C3_missing_key_short_circuit (some "") "ctx" (fun _ => LLMOutcome.ok "fine")
      (Or.inr rfl)).1⟩

/-- `openai_key = openai_key_in or st.secrets.get(K, os.getenv(K, ""))`
(source lines 136–137), the resolution applied to each credential: the
sidebar text input (`""` when left empty), the stored configuration
secret, and the process environment variable; Python `or` selects the
sidebar value exactly when it is truthy (non-empty), and each `get`
falls through to its default when the entry is absent. -/
def resolve_key (sidebar : String) (secret : Option String)
    (env : Option String) : String :=
  if sidebar = "" then secret.getD (env.getD "") else sidebar

/-- C9: each credential resolves to the first present value in the
order sidebar input → stored secret → environment variable, and to the
empty string when all three are absent. -/
theorem C9_precedence (sb : String) (sec env : Option String) :
    (sb ≠ "" → resolve_key sb sec env = sb) ∧
    (sb = "" → ∀ s, sec = some s → resolve_key sb sec env = s) ∧
    (sb = "" → sec = none → ∀ e, env = some e → resolve_key sb sec env = e) ∧
    (sb = "" → sec = none → env = none → resolve_key sb sec env = "") := by
  refine ⟨?_, ?_, ?_, ?_⟩
  · intro h
    simp [resolve_key, h]
  · intro h s hsec
    subst h
    subst hsec
    simp [resolve_key]
  · intro h hsec e henv
    subst h
    subst hsec
    subst henv
    simp [resolve_key]
  · intro h hsec henv
    subst h
    subst hsec
    subst henv
    simp [resolve_key]

/-- C9 witness: all four precedence cases at concrete values. -/
theorem C9_witness :
    resolve_key "kb" (some "ks") (some "ke") = "kb" ∧
    resolve_key "" (some "ks") (some "ke") = "ks" ∧
    resolve_key "" none (some "ke") = "ke" ∧
    resolve_key "" none none = "" :=
  ⟨(C9_precedence "kb" (some "ks") (some "ke")).1 (by decide),
   (C9_precedence "" (some "ks") (some "ke")).2.1 rfl "ks" rfl,
   (C9_precedence "" none (some "ke")).2.2.1 rfl rfl "ke" rfl,
   (C9_precedence "" none none).2.2.2 rfl rfl rfl⟩
